import Mathlib

/-!
# Verification of the m3d-couchdb-python client library

A shallow embedding of the parts of `couchdb/client.py`, `couchdb/views.py`
and `couchdb/exceptions.py` that carry the library's design contracts:

* the JSON serialization helper `_jsons` (client.py, `json.dumps` with
  `ensure_ascii=False`);
* the HTTP-status-to-exception mapping `http_error_lookup` (exceptions.py);
* the view-query parameter encoding and the view-result decoding of
  `Database.query_view` (client.py);
* the bulk update `Database.update` (client.py);
* document access `Database.__getitem__` / `Database.get` (client.py);
* the `Document.id` / `Document.rev` properties (client.py).

Python values that flow through these functions are JSON values; `Python`'s
`None` is modelled by `Json.null`.  Exceptions are modelled with `Except`.
-/

/-- A JSON value (also standing in for the Python objects handled by the
client: dicts, lists, strings, numbers, booleans and `None`). -/
inductive Json where
  | null : Json
  | bool : Bool → Json
  | num : Int → Json
  | str : String → Json
  | arr : List Json → Json
  | obj : List (String × Json) → Json
  deriving Repr

/-- One hexadecimal digit. -/
def hexDigit (n : Nat) : Char :=
  if n < 10 then Char.ofNat (48 + n) else Char.ofNat (87 + n)

/-- Four-digit lowercase hexadecimal rendering, as in JSON `\uXXXX` escapes. -/
def hex4 (n : Nat) : String :=
  String.mk [hexDigit (n / 4096 % 16), hexDigit (n / 256 % 16),
             hexDigit (n / 16 % 16), hexDigit (n % 16)]

/-- Escaping of a single character inside a JSON string literal, following
`json.dumps` with `ensure_ascii=False`: only the quote, the backslash and
control characters are escaped; everything else is emitted verbatim. -/
def escChar (c : Char) : String :=
  if c = '"' then "\\\""
  else if c = '\\' then "\\\\"
  else if c = '\n' then "\\n"
  else if c = '\t' then "\\t"
  else if c = '\r' then "\\r"
  else if c.toNat = 8 then "\\b"
  else if c.toNat = 12 then "\\f"
  else if c.toNat < 32 then "\\u" ++ hex4 c.toNat
  else String.singleton c

/-- A JSON string literal: opening quote, escaped characters, closing quote. -/
def jsonQuote (s : String) : String :=
  "\"" ++ String.join (s.toList.map escChar) ++ "\""

mutual

/-- `_jsons` from `client.py` (lines 51-53): `json.dumps(data,
ensure_ascii=False, indent=None)`, with the default separators
`", "` and `": "`. -/
def jsons : Json → String
  | Json.null => "null"
  | Json.bool true => "true"
  | Json.bool false => "false"
  | Json.num n => toString n
  | Json.str s => jsonQuote s
  | Json.arr xs => "[" ++ jsonsArr xs ++ "]"
  | Json.obj fs => "\x7b" ++ jsonsObj fs ++ "\x7d"

/-- Comma-separated rendering of the elements of a JSON array. -/
def jsonsArr : List Json → String
  | [] => ""
  | [x] => jsons x
  | x :: y :: rest => jsons x ++ ", " ++ jsonsArr (y :: rest)

/-- Comma-separated rendering of the members of a JSON object. -/
def jsonsObj : List (String × Json) → String
  | [] => ""
  | [(k, v)] => jsonQuote k ++ ": " ++ jsons v
  | (k, v) :: m :: rest => jsonQuote k ++ ": " ++ jsons v ++ ", " ++ jsonsObj (m :: rest)

end

/-! ## Python dict operations

The query parameters and documents handled by the client are Python dicts:
assignment `d[k] = v` replaces the value of an existing key in place (keeping
its position) or appends a new binding, and `d.get(k)` / `d[k]` look a key up.
-/

/-- Python dict assignment `d[k] = v` on an association list. -/
def dictInsert {α : Type} (k : String) (v : α) : List (String × α) → List (String × α)
  | [] => [(k, v)]
  | (k₀, v₀) :: rest => if k₀ = k then (k, v) :: rest else (k₀, v₀) :: dictInsert k v rest

/-- Python dict lookup returning `none` when the key is absent
(`k in d` / `d.get(k)`). -/
def dictFind {α : Type} (k : String) : List (String × α) → Option α
  | [] => none
  | (k₀, v₀) :: rest => if k₀ = k then some v₀ else dictFind k rest

/-! ## Error taxonomy (`couchdb/exceptions.py`)

The `HTTPError` class hierarchy of `exceptions.py` is modelled as a record
carrying the class (`HttpErrKind`), the `status_code` attribute and the
`message` attribute.  The other exception classes of `exceptions.py` that the
embedded operations raise are modelled by `CouchException` below.
-/

/-- The concrete Python class of an `HTTPError` instance. -/
inductive HttpErrKind where
  | badRequest | unauthorized | forbidden | notFound | conflict
  | preconditionFailed | generic
  deriving Repr, DecidableEq

/-- An instance of `HTTPError` (or of one of its subclasses) from
`exceptions.py`: it carries its class, its `status_code` and its `message`. -/
structure HTTPError where
  kind : HttpErrKind
  status_code : Int
  message : String
  deriving Repr, DecidableEq

/-- `HTTPError.__init__(self, status_code, message=None)`:
`self.message = message or "HTTP error {status_code}"` — the default kicks in
when `message` is `None` or falsy (the empty string). -/
def HTTPError.new (kind : HttpErrKind) (status_code : Int) (message : Option String) :
    HTTPError :=
  { kind := kind
    status_code := status_code
    message :=
      match message with
      | none => "HTTP error " ++ toString status_code
      | some m => if m = "" then "HTTP error " ++ toString status_code else m }

/-- `HTTPBadRequest(message="Bad Request")`. -/
def HTTPBadRequest.new (message : String) : HTTPError :=
  HTTPError.new HttpErrKind.badRequest 400 (some message)

/-- `HTTPUnauthorized(message="Unauthorized")`. -/
def HTTPUnauthorized.new (message : String) : HTTPError :=
  HTTPError.new HttpErrKind.unauthorized 401 (some message)

/-- `HTTPForbidden(message="Forbidden")`. -/
def HTTPForbidden.new (message : String) : HTTPError :=
  HTTPError.new HttpErrKind.forbidden 403 (some message)

/-- `HTTPNotFound(message="Not Found")`. -/
def HTTPNotFound.new (message : String) : HTTPError :=
  HTTPError.new HttpErrKind.notFound 404 (some message)

/-- `HTTPConflict(message="Conflict")`. -/
def HTTPConflict.new (message : String) : HTTPError :=
  HTTPError.new HttpErrKind.conflict 409 (some message)

/-- `HTTPPreconditionFailed(message="Precondition failed")`. -/
def HTTPPreconditionFailed.new (message : String) : HTTPError :=
  HTTPError.new HttpErrKind.preconditionFailed 412 (some message)

/-- `http_error_lookup(status_code, message=None)` from `exceptions.py`
(lines 105-114): the six specifically mapped codes instantiate the matching
subclass **with no arguments** (so each subclass constructor's default
message is used); every other code builds a plain
`HTTPError(status_code, message)`. -/
def http_error_lookup (status_code : Int) (message : Option String) : HTTPError :=
  if status_code = 400 then HTTPBadRequest.new "Bad Request"
  else if status_code = 401 then HTTPUnauthorized.new "Unauthorized"
  else if status_code = 403 then HTTPForbidden.new "Forbidden"
  else if status_code = 404 then HTTPNotFound.new "Not Found"
  else if status_code = 409 then HTTPConflict.new "Conflict"
  else if status_code = 412 then HTTPPreconditionFailed.new "Precondition failed"
  else HTTPError.new HttpErrKind.generic status_code message

/-! ## View query parameter encoding (`Database.query_view`, client.py 1057-1146)

The keyword arguments of `query_view` and the construction of its `params`
dict.  Python truthiness tests on the flag arguments (`if descending:` …) are
modelled with `Bool` fields; arguments defaulting to `None` are `Option`
fields.  The `assert update in ["true", "false", "lazy"]` is modelled by
returning `Except.error "AssertionError"`, which aborts `query_view` before
any request is made.
-/

/-- The keyword arguments of `Database.query_view`, with the defaults of the
Python signature. -/
structure QueryViewArgs where
  key : Option Json := none
  keys : Option Json := none
  startkey : Option Json := none
  endkey : Option Json := none
  skip : Option Json := none
  limit : Option Json := none
  sorted : Bool := true
  descending : Bool := false
  group : Bool := false
  group_level : Option Json := none
  reduce : Option Bool := none
  include_docs : Bool := false
  update : Option String := none

/-- `if x is not None: params[name] = _jsons(x)`. -/
def optionParam (name : String) (v : Option Json) (ps : List (String × String)) :
    List (String × String) :=
  match v with
  | some j => dictInsert name (jsons j) ps
  | none => ps

/-- `if cnd: params[name] = val`. -/
def flagParam (name : String) (cnd : Bool) (val : String) (ps : List (String × String)) :
    List (String × String) :=
  if cnd then dictInsert name val ps else ps

/-- The `params` dict built by `Database.query_view` (client.py lines
1118-1146), in source order; the trailing `assert` on `update` is the
`Except.error` case. -/
def query_view_params (a : QueryViewArgs) : Except String (List (String × String)) :=
  let ps : List (String × String) := []
  let ps := optionParam "startkey" a.startkey ps
  let ps := optionParam "key" a.key ps
  let ps := optionParam "keys" a.keys ps
  let ps := optionParam "endkey" a.endkey ps
  let ps := optionParam "skip" a.skip ps
  let ps := optionParam "limit" a.limit ps
  let ps := flagParam "sorted" (!a.sorted) (jsons (Json.bool false)) ps
  let ps := flagParam "descending" a.descending (jsons (Json.bool true)) ps
  let ps := flagParam "group" a.group (jsons (Json.bool true)) ps
  let ps := optionParam "group_level" a.group_level ps
  let ps :=
    match a.reduce with
    | some b => dictInsert "reduce" (jsons (Json.bool b)) ps
    | none => ps
  let ps :=
    if a.include_docs then
      dictInsert "reduce" (jsons (Json.bool false))
        (dictInsert "include_docs" (jsons (Json.bool true)) ps)
    else ps
  match a.update with
  | none => Except.ok ps
  | some u =>
      if u = "true" ∨ u = "false" ∨ u = "lazy" then
        Except.ok (dictInsert "update" u ps)
      else Except.error "AssertionError"

/-- The value a JSON-encoded optional parameter contributes to a lookup. -/
def optOr (v : Option Json) (alt : Option String) : Option String :=
  match v with
  | some j => some (jsons j)
  | none => alt

/-! ## View result decoding (`couchdb/views.py` and client.py lines 1154-1162)

`views.py` defines `Row = collections.namedtuple("Row", ["id", "key", "value",
"doc"])` — a record with exactly four positional fields — and `ViewResult`
holding `rows`, `offset` and `total_rows`.  `Database.query_view` builds each
row as `views.Row(r.get("id"), r.get("key"), r.get("value"), r.get("error"),
r.get("doc"))`, i.e. with **five** positional arguments.  The arity check of
the namedtuple constructor is modelled explicitly by `Row.ofArgs`.
-/

/-- The `Row` namedtuple of `views.py` (line 31): exactly the four fields
`id`, `key`, `value`, `doc`. -/
structure Row where
  id : Json
  key : Json
  value : Json
  doc : Json
  deriving Repr

/-- Calling the `Row` namedtuple constructor with a list of positional
arguments: a `TypeError` unless exactly four are supplied. -/
def Row.ofArgs : List Json → Except String Row
  | [i, k, v, d] => Except.ok { id := i, key := k, value := v, doc := d }
  | args => Except.error ("TypeError: Row() takes 4 positional arguments but "
      ++ toString args.length ++ " were given")

/-- The `ViewResult` object of `views.py`. -/
structure ViewResult where
  rows : List Row
  offset : Json
  total_rows : Json
  deriving Repr

/-- Python `r.get(k)` on a row of the response: `None` (`Json.null`) when the
key is absent, an `AttributeError` when `r` is not a dict. -/
def jsonGet (r : Json) (k : String) : Except String Json :=
  match r with
  | Json.obj fields =>
      Except.ok (match dictFind k fields with
        | some v => v
        | none => Json.null)
  | _ => Except.error "AttributeError"

/-- One iteration of the row comprehension in `Database.query_view`
(client.py line 1157): `views.Row(r.get("id"), r.get("key"), r.get("value"),
r.get("error"), r.get("doc"))`. -/
def decodeRow (r : Json) : Except String Row := do
  let i ← jsonGet r "id"
  let k ← jsonGet r "key"
  let v ← jsonGet r "value"
  let e ← jsonGet r "error"
  let d ← jsonGet r "doc"
  Row.ofArgs [i, k, v, e, d]

/-- The row list comprehension: built eagerly, aborted by the first raised
exception. -/
def decodeRows : List Json → Except String (List Row)
  | [] => Except.ok []
  | r :: rest => do
      let row ← decodeRow r
      let more ← decodeRows rest
      Except.ok (row :: more)

/-- The result construction of `Database.query_view` (client.py lines
1154-1162): `ViewResult([...Row(...)...], data.get("offset"),
data.get("total_rows"))` with the rows taken from `data.get("rows", [])`. -/
def query_view_decode (data : Json) : Except String ViewResult :=
  match data with
  | Json.obj fields => do
      let rowsJson ← match dictFind "rows" fields with
        | some (Json.arr xs) => Except.ok xs
        | some _ => Except.error "TypeError"
        | none => Except.ok []
      let rows ← decodeRows rowsJson
      let offset := match dictFind "offset" fields with
        | some v => v
        | none => Json.null
      let total := match dictFind "total_rows" fields with
        | some v => v
        | none => Json.null
      Except.ok { rows := rows, offset := offset, total_rows := total }
  | _ => Except.error "AttributeError"

/-! ## Bulk update (`Database.update`, client.py lines 940-1009)

A document is a Python dict (`Doc`).  `Database.update` posts the documents
to `_bulk_docs` and then walks the decoded JSON response array `data` with
`enumerate`, producing one `(success, docid, rev_or_exc)` triple per response
entry; a success entry additionally mutates `documents[idx]` in place with
the new `_id`/`_rev`.  The dict-conversion loop over the input (lines
978-985) is the identity on dicts, which is how documents are modelled here.
-/

/-- A Python dict holding a document. -/
abbrev Doc := List (String × Json)

/-- The exception values raised or returned by the embedded operations
(`exceptions.py` classes outside the `HTTPError` hierarchy). -/
inductive CouchException where
  | updateConflict (reason : Json)
  | couchDBException (reason : Json)
  | missingDocument (msg : String)
  | httpExc (e : HTTPError)
  deriving Repr

/-- The third component of an outcome triple of `Database.update`: either the
new revision or the exception instance. -/
inductive RevOrExc where
  | rev (r : Json)
  | exc (e : CouchException)
  deriving Repr

/-- Python `result['error'] == 'conflict'`. -/
def isConflictTag : Json → Bool
  | Json.str s => s = "conflict"
  | _ => false

/-- Python dict indexing `d[k]`: a `KeyError` when the key is absent. -/
def keyGet (fields : List (String × Json)) (k : String) : Except String Json :=
  match dictFind k fields with
  | some v => Except.ok v
  | none => Except.error ("KeyError: " ++ k)

/-- `doc.update({'_id': i, '_rev': r})`. -/
def docSetIdRev (doc : Doc) (i r : Json) : Doc :=
  dictInsert "_rev" r (dictInsert "_id" i doc)

/-- The response-processing loop of `Database.update` (client.py lines
993-1009): `for idx, result in enumerate(data)`, with `documents` the input
list being mutated in place and `idx` the enumeration index.  Returns the
final state of `documents` together with `results`. -/
def db_update_loop (documents : List Doc) (data : List Json) (idx : Nat) :
    Except String (List Doc × List (Bool × Json × RevOrExc)) :=
  match data with
  | [] => Except.ok (documents, [])
  | result :: rest =>
    match result with
    | Json.obj fields =>
        if (dictFind "error" fields).isSome then do
          let ev ← keyGet fields "error"
          let i ← keyGet fields "id"
          let reason ← keyGet fields "reason"
          let exc :=
            if isConflictTag ev then CouchException.updateConflict reason
            else CouchException.couchDBException reason
          let (docs, res) ← db_update_loop documents rest (idx + 1)
          Except.ok (docs, (false, i, RevOrExc.exc exc) :: res)
        else do
          let i ← keyGet fields "id"
          let rv ← keyGet fields "rev"
          match documents.get? idx with
          | some doc =>
            let updated := documents.set idx (docSetIdRev doc i rv)
            let (docs, res) ← db_update_loop updated rest (idx + 1)
            Except.ok (docs, (true, i, RevOrExc.rev rv) :: res)
          | none => Except.error "IndexError"
    | _ => Except.error "TypeError"

/-- `Database.update(documents)` applied to the decoded `_bulk_docs`
response array `data`. -/
def db_update (documents : List Doc) (data : List Json) :
    Except String (List Doc × List (Bool × Json × RevOrExc)) :=
  db_update_loop documents data 0

/-- A well-formed per-document server report in a `_bulk_docs` response:
either success (with id and new revision) or a named error with a reason. -/
inductive BulkSpec where
  | ok (id rev : String)
  | err (errTag id reason : String)

/-- The JSON object CouchDB sends for one `BulkSpec` report. -/
def BulkSpec.toJson : BulkSpec → Json
  | BulkSpec.ok i r =>
      Json.obj [("ok", Json.bool true), ("id", Json.str i), ("rev", Json.str r)]
  | BulkSpec.err e i reason =>
      Json.obj [("error", Json.str e), ("id", Json.str i), ("reason", Json.str reason)]

/-- The outcome triple the specification promises for one report: success
carries the new revision, failure carries an `UpdateConflict` exactly for
conflict errors and a generic `CouchDBException` otherwise. -/
def bulkOutcome : BulkSpec → Bool × Json × RevOrExc
  | BulkSpec.ok i r => (true, Json.str i, RevOrExc.rev (Json.str r))
  | BulkSpec.err e i reason =>
      (false, Json.str i, RevOrExc.exc
        (if e = "conflict" then CouchException.updateConflict (Json.str reason)
         else CouchException.couchDBException (Json.str reason)))

/-- The state the specification promises for one input document: mutated with
the new `_id`/`_rev` on success, unchanged on failure. -/
def bulkDocAfter (doc : Doc) : BulkSpec → Doc
  | BulkSpec.ok i r => docSetIdRev doc (Json.str i) (Json.str r)
  | BulkSpec.err _ _ _ => doc

/-! ## Document access (`Database.__getitem__` / `Database.get`)

`Session.request` (client.py lines 74-84) raises
`http_error_lookup(status_code, reason)` whenever the underlying response has
an error status (`raise_for_status` fires for status ≥ 400).  The server's
response for `GET /db/{id}` is abstracted as a function from the document id
to an `HttpResponse`; the query parameters built by `Database.get` only
select which response the server produces and are absorbed into that
function.
-/

/-- An HTTP response: status code, reason phrase and decoded JSON body. -/
structure HttpResponse where
  status : Int
  reason : String
  body : Json

/-- `Session.request` + `resp.raise_for_status()` (client.py lines 74-84):
an error status raises the exception made by `http_error_lookup` from the
status code and reason; otherwise the decoded body is returned. -/
def session_request (resp : HttpResponse) : Except HTTPError Json :=
  if 400 ≤ resp.status then
    Except.error (http_error_lookup resp.status (some resp.reason))
  else Except.ok resp.body

/-- `Database.__getitem__` (client.py lines 507-517): `except
exceptions.HTTPNotFound` re-raises `MissingDocument("Document does not
exist")`; any other exception propagates. -/
def db_getitem (server : String → HttpResponse) (id : String) :
    Except CouchException Json :=
  match session_request (server id) with
  | Except.ok body => Except.ok body
  | Except.error e =>
      if e.kind = HttpErrKind.notFound then
        Except.error (CouchException.missingDocument "Document does not exist")
      else Except.error (CouchException.httpExc e)

/-- `Database.get(id, default=None, ...)` (client.py lines 692-743): `except
exceptions.HTTPNotFound: return default`; any other exception propagates. -/
def db_get (server : String → HttpResponse) (id : String) (dflt : Json) :
    Except HTTPError Json :=
  match session_request (server id) with
  | Except.ok body => Except.ok body
  | Except.error e =>
      if e.kind = HttpErrKind.notFound then Except.ok dflt
      else Except.error e

/-! ## `Document` (client.py lines 1317-1344)

`Document` is a dict subclass; its `id` and `rev` properties are
`self.get('_id')` and `self.get('_rev')`, i.e. total dict lookups returning
`None` (never raising `KeyError`).
-/

/-- The `Document.id` property: `self.get('_id')`. -/
def Document.id (doc : Doc) : Json :=
  match dictFind "_id" doc with
  | some v => v
  | none => Json.null

/-- The `Document.rev` property: `self.get('_rev')`. -/
def Document.rev (doc : Doc) : Json :=
  match dictFind "_rev" doc with
  | some v => v
  | none => Json.null

/-! ## Helper lemmas -/

theorem dictFind_dictInsert {α : Type} (k k₁ : String) (v : α)
    (ps : List (String × α)) :
    dictFind k (dictInsert k₁ v ps)
      = if k₁ = k then some v else dictFind k ps := by
  induction ps with
  | nil => simp [dictInsert, dictFind]
  | cons p rest ih =>
    obtain ⟨k₀, v₀⟩ := p
    by_cases h₀ : k₀ = k₁
    · subst h₀
      by_cases h₁ : k₀ = k <;> simp [dictInsert, dictFind, h₁]
    · by_cases h₁ : k₀ = k
      · subst h₁
        simp [dictInsert, dictFind, h₀, Ne.symm h₀]
      · simp [dictInsert, dictFind, h₀, h₁, ih]

theorem optOr_none_right (v : Option Json) : optOr v none = v.map jsons := by
  cases v <;> rfl

theorem jsons_bool_false : jsons (Json.bool false) = "false" := rfl

theorem jsons_bool_true : jsons (Json.bool true) = "true" := rfl

theorem dictFind_optParam (k name : String) (v : Option Json)
    (ps : List (String × String)) :
    dictFind k (optionParam name v ps)
      = if name = k then optOr v (dictFind k ps) else dictFind k ps := by
  cases v with
  | none => simp [optionParam, optOr]
  | some j => by_cases h : name = k <;> simp [optionParam, optOr, dictFind_dictInsert, h]

theorem dictFind_flagParam (k name : String) (cnd : Bool) (val : String)
    (ps : List (String × String)) :
    dictFind k (flagParam name cnd val ps)
      = if name = k then (if cnd then some val else dictFind k ps)
        else dictFind k ps := by
  cases cnd <;> by_cases h : name = k <;> simp [flagParam, dictFind_dictInsert, h]

/-- Full characterization of the encoded view query parameters: for every
argument record accepted by `query_view` (no assertion failure), each
parameter's presence and value in the wire encoding. -/
theorem query_view_params_lookup (a : QueryViewArgs) (ps : List (String × String))
    (h : query_view_params a = Except.ok ps) :
    dictFind "key" ps = a.key.map jsons ∧
    dictFind "keys" ps = a.keys.map jsons ∧
    dictFind "startkey" ps = a.startkey.map jsons ∧
    dictFind "endkey" ps = a.endkey.map jsons ∧
    dictFind "skip" ps = a.skip.map jsons ∧
    dictFind "limit" ps = a.limit.map jsons ∧
    dictFind "sorted" ps = (if a.sorted then none else some "false") ∧
    dictFind "descending" ps = (if a.descending then some "true" else none) ∧
    dictFind "group" ps = (if a.group then some "true" else none) ∧
    dictFind "group_level" ps = a.group_level.map jsons ∧
    dictFind "include_docs" ps = (if a.include_docs then some "true" else none) ∧
    dictFind "reduce" ps
      = (if a.include_docs then some "false"
         else a.reduce.map (fun b => jsons (Json.bool b))) ∧
    dictFind "update" ps = a.update := by
  unfold query_view_params at h
  rcases hu : a.update with _ | u
  · rw [hu] at h
    simp only at h
    rw [Except.ok.injEq] at h
    subst h
    rcases hr : a.reduce with _ | b <;> rcases hi : a.include_docs <;>
      cases hs : a.sorted <;>
      simp [hr, hi, hs, hu, dictFind_optParam, dictFind_flagParam,
        dictFind_dictInsert, optOr_none_right, dictFind,
        jsons_bool_false, jsons_bool_true]
  · rw [hu] at h
    simp only at h
    by_cases hv : u = "true" ∨ u = "false" ∨ u = "lazy"
    · rw [if_pos hv, Except.ok.injEq] at h
      subst h
      rcases hr : a.reduce with _ | b <;> rcases hi : a.include_docs <;>
        cases hs : a.sorted <;>
        simp [hr, hi, hs, hu, dictFind_optParam, dictFind_flagParam,
          dictFind_dictInsert, optOr_none_right, dictFind,
          jsons_bool_false, jsons_bool_true]
    · rw [if_neg hv] at h
      cases h

theorem getq_append_cons {α : Type} (pre : List α) (d : α) (rest : List α) :
    (pre ++ d :: rest).get? pre.length = some d := by
  induction pre with
  | nil => rfl
  | cons a pre ih => exact ih

theorem bind_ok_eq {ε α β : Type} (a : α) (f : α → Except ε β) :
    (Except.ok a : Except ε α) >>= f = f a := rfl

theorem set_append_cons {α : Type} (pre : List α) (d d₁ : α) (rest : List α) :
    (pre ++ d :: rest).set pre.length d₁ = pre ++ d₁ :: rest := by
  induction pre with
  | nil => rfl
  | cons a pre ih => simp [List.set, ih]

/-- The response loop on well-formed reports: with `idx` pointing at the
first unprocessed document, the processed prefix is left alone, each
remaining document is updated per its report, and the outcomes align
positionally with the reports. -/
theorem db_update_loop_eq (spec : List BulkSpec) (pre rest : List Doc)
    (h : rest.length = spec.length) :
    db_update_loop (pre ++ rest) (spec.map BulkSpec.toJson) pre.length
      = Except.ok (pre ++ List.zipWith bulkDocAfter rest spec,
                   spec.map bulkOutcome) := by
  induction spec generalizing pre rest with
  | nil =>
    cases rest with
    | nil => simp [db_update_loop]
    | cons d rest => simp at h
  | cons s spec ih =>
    cases rest with
    | nil => simp at h
    | cons d rest =>
      have h₁ : rest.length = spec.length := by simpa using h
      cases s with
      | ok i r =>
        have hstep := ih (pre ++ [docSetIdRev d (Json.str i) (Json.str r)]) rest h₁
        rw [show (pre ++ [docSetIdRev d (Json.str i) (Json.str r)]).length
            = pre.length + 1 by simp] at hstep
        rw [List.append_assoc, List.append_assoc] at hstep
        simp only [List.singleton_append] at hstep
        simp [db_update_loop, BulkSpec.toJson, dictFind, keyGet, getq_append_cons,
          set_append_cons, hstep, bulkOutcome, bulkDocAfter, bind_ok_eq,
          List.getElem_append_right, List.getElem_cons_zero]
      | err e i reason =>
        have hstep := ih (pre ++ [d]) rest h₁
        rw [show (pre ++ [d]).length = pre.length + 1 by simp] at hstep
        rw [List.append_assoc, List.append_assoc] at hstep
        simp only [List.singleton_append] at hstep
        simp [db_update_loop, BulkSpec.toJson, dictFind, keyGet, hstep,
          bulkOutcome, bulkDocAfter, isConflictTag, bind_ok_eq]

/-! ## Claim theorems -/

/-- C1: the claim states that decoding the view response
`{"rows":[{"id":"a","key":1,"value":10}], "offset":0, "total_rows":1}`
yields a `ViewResult` with one `Row` (with `doc` absent and `total_rows = 1`),
and that each entry of `rows` becomes one `Row`.  The code disagrees with
itself: `views.Row` has the four fields `id`, `key`, `value`, `doc`
(views.py line 31), but `Database.query_view` calls it with the five
positional values `r.get("id")`, `r.get("key")`, `r.get("value")`,
`r.get("error")`, `r.get("doc")` (client.py line 1157), so decoding the
claimed response raises a `TypeError` instead of producing a row. -/
theorem C1_view_decode_raises_type_err :
    query_view_decode (Json.obj
        [("rows", Json.arr [Json.obj
            [("id", Json.str "a"), ("key", Json.num 1), ("value", Json.num 10)]]),
         ("offset", Json.num 0), ("total_rows", Json.num 1)])
      = Except.error "TypeError: Row() takes 4 positional arguments but 5 were given" := by
  rfl

/-- C2 counterexample: the claim says every status code outside the six
mapped ones returns a generic `HTTPError` carrying the supplied message; at
status 500 with the supplied message `""` the returned error instead carries
the default `"HTTP error 500"` — `HTTPError.__init__` replaces a falsy
message (`message or "HTTP error {status_code}"`). -/
theorem C2_counterexample_empty_message_replaced :
    (http_error_lookup 500 (some "")).message = "HTTP error 500" ∧
    (http_error_lookup 500 (some "")).message ≠ "" := by
  exact ⟨rfl, by decide⟩

/-- C2 amended: `http_error_lookup` maps 400/401/403/404/409/412 to the
matching specific error kind (each with its fixed status code); any other
status code yields a generic `HTTPError` whose `status_code` is that exact
code and which carries the supplied message whenever that message is
non-empty, while a supplied empty message or an absent message is replaced
by the default `"HTTP error {status_code}"`. -/
theorem C2_http_error_lookup_mapping (code : Int) (m : String)
    (hc : code ∉ ({400, 401, 403, 404, 409, 412} : Set Int)) (hm : m ≠ "") :
    http_error_lookup 400 (some m)
      = { kind := HttpErrKind.badRequest, status_code := 400, message := "Bad Request" } ∧
    http_error_lookup 401 (some m)
      = { kind := HttpErrKind.unauthorized, status_code := 401, message := "Unauthorized" } ∧
    http_error_lookup 403 (some m)
      = { kind := HttpErrKind.forbidden, status_code := 403, message := "Forbidden" } ∧
    http_error_lookup 404 (some m)
      = { kind := HttpErrKind.notFound, status_code := 404, message := "Not Found" } ∧
    http_error_lookup 409 (some m)
      = { kind := HttpErrKind.conflict, status_code := 409, message := "Conflict" } ∧
    http_error_lookup 412 (some m)
      = { kind := HttpErrKind.preconditionFailed, status_code := 412,
          message := "Precondition failed" } ∧
    http_error_lookup code (some m)
      = { kind := HttpErrKind.generic, status_code := code, message := m } ∧
    http_error_lookup code (some "")
      = { kind := HttpErrKind.generic, status_code := code,
          message := "HTTP error " ++ toString code } ∧
    http_error_lookup code none
      = { kind := HttpErrKind.generic, status_code := code,
          message := "HTTP error " ++ toString code } := by
  simp only [Set.mem_insert_iff, Set.mem_singleton_iff, not_or] at hc
  obtain ⟨h400, h401, h403, h404, h409, h412⟩ := hc
  refine ⟨rfl, rfl, rfl, rfl, rfl, rfl, ?_, ?_, ?_⟩ <;>
    simp [http_error_lookup, HTTPError.new, h400, h401, h403, h404, h409, h412, hm]

/-- Witness for the amended C2 at the unmapped status code 500: the message
"boom" is carried, empty and absent messages get the default. -/
theorem C2_http_error_lookup_mapping_witness :
    http_error_lookup 500 (some "boom")
      = { kind := HttpErrKind.generic, status_code := 500, message := "boom" } ∧
    http_error_lookup 500 (some "")
      = { kind := HttpErrKind.generic, status_code := 500,
          message := "HTTP error " ++ toString (500 : Int) } ∧
    http_error_lookup 500 none
      = { kind := HttpErrKind.generic, status_code := 500,
          message := "HTTP error " ++ toString (500 : Int) } :=
  (C2_http_error_lookup_mapping 500 "boom" (by simp) (by decide)).2.2.2.2.2.2

/-- C9: for each of the six specifically mapped status codes,
`http_error_lookup` discards the supplied reason entirely — the returned
exception carries the fixed default message of its class, whatever the
reason argument was. -/
theorem C9_mapped_codes_discard_reason (m : Option String) :
    (http_error_lookup 400 m).message = "Bad Request" ∧
    (http_error_lookup 401 m).message = "Unauthorized" ∧
    (http_error_lookup 403 m).message = "Forbidden" ∧
    (http_error_lookup 404 m).message = "Not Found" ∧
    (http_error_lookup 409 m).message = "Conflict" ∧
    (http_error_lookup 412 m).message = "Precondition failed" :=
  ⟨rfl, rfl, rfl, rfl, rfl, rfl⟩

/-- C3: whenever `include_docs` is truthy, the encoded query parameters
contain `reduce=false` (overriding any caller-supplied `reduce`, including
`reduce=True`) together with `include_docs=true`. -/
theorem C3_include_docs_forces_reduce_false (a : QueryViewArgs)
    (ps : List (String × String)) (hid : a.include_docs = true)
    (h : query_view_params a = Except.ok ps) :
    dictFind "reduce" ps = some "false" ∧ dictFind "include_docs" ps = some "true" := by
  obtain ⟨-, -, -, -, -, -, -, -, -, -, hdocs, hred, -⟩ := query_view_params_lookup a ps h
  rw [hid] at hdocs hred
  exact ⟨by simpa using hred, by simpa using hdocs⟩

/-- Witness for C3: `include_docs=True` with caller-supplied `reduce=True`. -/
theorem C3_include_docs_forces_reduce_false_witness :
    dictFind "reduce" [("reduce", "false"), ("include_docs", "true")] = some "false" ∧
    dictFind "include_docs" [("reduce", "false"), ("include_docs", "true")]
      = some "true" :=
  C3_include_docs_forces_reduce_false
    { include_docs := true, reduce := some true } _ rfl rfl

/-- C4 counterexample: the claim says explicitly passing `descending=False`
or `group=False` sends `descending=false` / `group=false`; in fact a call
with `descending=False, group=False` (and everything else at its default)
sends no parameters at all. -/
theorem C4_counterexample_false_flags_omitted :
    query_view_params { descending := false, group := false } = Except.ok [] ∧
    dictFind "descending" ([] : List (String × String)) = none ∧
    dictFind "group" ([] : List (String × String)) = none :=
  ⟨rfl, rfl, rfl⟩

/-- C4 amended: `descending`, `group` and `include_docs` are sent
(JSON-encoded as `true`) only when truthy and omitted otherwise — passing
`False` explicitly sends nothing; `sorted` is sent (as `false`) only when
falsy; only `reduce` is omitted exactly when unspecified (`None`) and
JSON-encoded as `true`/`false` whenever specified, except that a truthy
`include_docs` overrides it with `false`. -/
theorem C4_amended_flag_encoding (a : QueryViewArgs)
    (ps : List (String × String)) (h : query_view_params a = Except.ok ps) :
    dictFind "descending" ps = (if a.descending then some "true" else none) ∧
    dictFind "group" ps = (if a.group then some "true" else none) ∧
    dictFind "sorted" ps = (if a.sorted then none else some "false") ∧
    dictFind "include_docs" ps = (if a.include_docs then some "true" else none) ∧
    dictFind "reduce" ps
      = (if a.include_docs then some "false"
         else a.reduce.map (fun b => jsons (Json.bool b))) := by
  obtain ⟨-, -, -, -, -, -, hsort, hdesc, hgrp, -, hdocs, hred, -⟩ :=
    query_view_params_lookup a ps h
  exact ⟨hdesc, hgrp, hsort, hdocs, hred⟩

/-- Witness for the amended C4: `descending=True` with `reduce=False`. -/
theorem C4_amended_flag_encoding_witness :
    dictFind "descending" [("descending", "true"), ("reduce", "false")] = some "true" ∧
    dictFind "group" [("descending", "true"), ("reduce", "false")] = none ∧
    dictFind "sorted" [("descending", "true"), ("reduce", "false")] = none ∧
    dictFind "include_docs" [("descending", "true"), ("reduce", "false")] = none ∧
    dictFind "reduce" [("descending", "true"), ("reduce", "false")] = some "false" :=
  C4_amended_flag_encoding { descending := true, reduce := some false } _ rfl

/-- C5: whenever any of `key`, `keys`, `startkey`, `endkey` is specified,
its encoded value is the JSON serialization of the supplied value; in
particular the string `"foo"` is encoded with surrounding quote characters,
not as the raw characters `foo`. -/
theorem C5_key_params_json_encoded (a : QueryViewArgs)
    (ps : List (String × String)) (h : query_view_params a = Except.ok ps) :
    (∀ v, a.key = some v → dictFind "key" ps = some (jsons v)) ∧
    (∀ v, a.keys = some v → dictFind "keys" ps = some (jsons v)) ∧
    (∀ v, a.startkey = some v → dictFind "startkey" ps = some (jsons v)) ∧
    (∀ v, a.endkey = some v → dictFind "endkey" ps = some (jsons v)) ∧
    jsons (Json.str "foo") = "\"foo\"" ∧ "\"foo\"" ≠ "foo" := by
  obtain ⟨hkey, hkeys, hstart, hend, -⟩ := query_view_params_lookup a ps h
  refine ⟨?_, ?_, ?_, ?_, rfl, by decide⟩ <;> intro v hv
  · rw [hkey, hv]; rfl
  · rw [hkeys, hv]; rfl
  · rw [hstart, hv]; rfl
  · rw [hend, hv]; rfl

/-- Witness for C5: `key="foo"` is sent as the quoted string. -/
theorem C5_key_params_json_encoded_witness :
    dictFind "key" [("key", "\"foo\"")] = some "\"foo\"" :=
  (C5_key_params_json_encoded { key := some (Json.str "foo") } [("key", "\"foo\"")]
    rfl).1 (Json.str "foo") rfl

/-- C8: a non-`None` `update` argument equal to one of the literals
`"true"`, `"false"`, `"lazy"` is sent unchanged as the `update` parameter;
any other value fails the assertion, so `query_view` raises before building a
request and no parameters are sent. -/
theorem C8_update_literal_validation (a : QueryViewArgs) (u : String)
    (hu : a.update = some u) :
    ((u = "true" ∨ u = "false" ∨ u = "lazy") →
      ∃ ps, query_view_params a = Except.ok ps ∧ dictFind "update" ps = some u) ∧
    (¬(u = "true" ∨ u = "false" ∨ u = "lazy") →
      query_view_params a = Except.error "AssertionError") := by
  constructor
  · intro hv
    unfold query_view_params
    rw [hu]
    simp only [if_pos hv]
    exact ⟨_, rfl, by simp [dictFind_dictInsert]⟩
  · intro hv
    unfold query_view_params
    rw [hu]
    simp only [if_neg hv]

/-- Witness for C8: `update="nope"` is rejected before any request. -/
theorem C8_update_literal_validation_witness :
    query_view_params { update := some "nope" } = Except.error "AssertionError" :=
  (C8_update_literal_validation { update := some "nope" } "nope" rfl).2 (by decide)

/-- C6: for a response aligned with the input, `Database.update` returns one
outcome per document in input order — `(True, id, new_rev)` on success and
`(False, id, exc)` on failure, with `exc` an `UpdateConflict` exactly for a
server-reported conflict and a generic `CouchDBException` otherwise — and
the final document list has each successful document updated in place with
its new `_id`/`_rev` and each failed document unchanged. -/
theorem C6_bulk_update_outcomes (documents : List Doc) (spec : List BulkSpec)
    (h : documents.length = spec.length) :
    db_update documents (spec.map BulkSpec.toJson)
      = Except.ok (List.zipWith bulkDocAfter documents spec,
                   spec.map bulkOutcome) := by
  have hh := db_update_loop_eq spec [] documents h
  simpa [db_update] using hh

/-- Witness for C6: the specification's own example — two documents, the
second reported as a conflict. -/
theorem C6_bulk_update_outcomes_witness :
    db_update [[("type", Json.str "A")], [("type", Json.str "B")]]
        [Json.obj [("ok", Json.bool true), ("id", Json.str "id1"),
                   ("rev", Json.str "rev1")],
         Json.obj [("error", Json.str "conflict"), ("id", Json.str "id2"),
                   ("reason", Json.str "Document update conflict.")]]
      = Except.ok
          ([[("type", Json.str "A"), ("_id", Json.str "id1"), ("_rev", Json.str "rev1")],
            [("type", Json.str "B")]],
           [(true, Json.str "id1", RevOrExc.rev (Json.str "rev1")),
            (false, Json.str "id2", RevOrExc.exc (CouchException.updateConflict
              (Json.str "Document update conflict.")))]) :=
  C6_bulk_update_outcomes
    [[("type", Json.str "A")], [("type", Json.str "B")]]
    [BulkSpec.ok "id1" "rev1",
     BulkSpec.err "conflict" "id2" "Document update conflict."]
    rfl

/-- C7: when the server answers 404 for a document id, indexed access raises
`MissingDocument` while `Database.get` returns the caller-supplied default;
when the server answers successfully, both return the document body. -/
theorem C7_getitem_raises_get_defaults (server : String → HttpResponse)
    (id : String) (dflt : Json) :
    ((server id).status = 404 →
      db_getitem server id
        = Except.error (CouchException.missingDocument "Document does not exist") ∧
      db_get server id dflt = Except.ok dflt) ∧
    (¬ 400 ≤ (server id).status →
      db_getitem server id = Except.ok (server id).body ∧
      db_get server id dflt = Except.ok (server id).body) := by
  constructor
  · intro h404
    have hreq : session_request (server id)
        = Except.error (http_error_lookup 404 (some (server id).reason)) := by
      simp [session_request, h404]
    constructor
    · simp [db_getitem, hreq, http_error_lookup, HTTPNotFound.new, HTTPError.new]
    · simp [db_get, hreq, http_error_lookup, HTTPNotFound.new, HTTPError.new]
  · intro hok
    have hreq : session_request (server id) = Except.ok (server id).body := by
      simp [session_request, hok]
    exact ⟨by simp [db_getitem, hreq], by simp [db_get, hreq]⟩

/-- Witness for C7: a two-document server, one id present and one missing. -/
theorem C7_getitem_raises_get_defaults_witness :
    (db_getitem
        (fun s => if s = "present" then HttpResponse.mk 200 "OK" (Json.str "doc")
                  else HttpResponse.mk 404 "Object Not Found" Json.null) "missing"
      = Except.error (CouchException.missingDocument "Document does not exist") ∧
     db_get
        (fun s => if s = "present" then HttpResponse.mk 200 "OK" (Json.str "doc")
                  else HttpResponse.mk 404 "Object Not Found" Json.null) "missing"
        (Json.str "fallback")
      = Except.ok (Json.str "fallback")) ∧
    (db_getitem
        (fun s => if s = "present" then HttpResponse.mk 200 "OK" (Json.str "doc")
                  else HttpResponse.mk 404 "Object Not Found" Json.null) "present"
      = Except.ok (Json.str "doc") ∧
     db_get
        (fun s => if s = "present" then HttpResponse.mk 200 "OK" (Json.str "doc")
                  else HttpResponse.mk 404 "Object Not Found" Json.null) "present"
        (Json.str "fallback")
      = Except.ok (Json.str "doc")) :=
  ⟨(C7_getitem_raises_get_defaults
      (fun s => if s = "present" then HttpResponse.mk 200 "OK" (Json.str "doc")
                else HttpResponse.mk 404 "Object Not Found" Json.null)
      "missing" (Json.str "fallback")).1 rfl,
   (C7_getitem_raises_get_defaults
      (fun s => if s = "present" then HttpResponse.mk 200 "OK" (Json.str "doc")
                else HttpResponse.mk 404 "Object Not Found" Json.null)
      "present" (Json.str "fallback")).2 (by decide)⟩

/-- C10: on a document dict missing `_id` (respectively `_rev`), the `id`
(respectively `rev`) property returns `None`; both properties are total
functions (`dict.get`), so neither can raise `KeyError`. -/
theorem C10_document_props_total (doc : Doc) :
    (dictFind "_id" doc = none → Document.id doc = Json.null) ∧
    (dictFind "_rev" doc = none → Document.rev doc = Json.null) := by
  constructor <;> intro h
  · simp [Document.id, h]
  · simp [Document.rev, h]

/-- Witness for C10: a document carrying neither `_id` nor `_rev`. -/
theorem C10_document_props_total_witness :
    Document.id [("name", Json.str "x")] = Json.null ∧
    Document.rev [("name", Json.str "x")] = Json.null :=
  ⟨(C10_document_props_total [("name", Json.str "x")]).1 rfl,
   (C10_document_props_total [("name", Json.str "x")]).2 rfl⟩
